import Mathlib

/-!
Shallow embedding of `src/vmware_perf_counters.py` and proofs about its
specification.  Time stamps and counter values are modelled as `Int`,
Python `None` as `Option.none`, Python exceptions as `Except` errors.
-/

namespace VmwarePerf

/-- The `CounterInfo` dataclass (src lines 18-24). -/
structure CounterInfo where
  id : Int
  name : String
  rollup_type : String
  label : String
  summary : String
deriving Repr, DecidableEq

/-- `nameInfo` element of a raw counter (fields used by the source). -/
structure NameInfo where
  key : String
  summary : String
deriving Repr, DecidableEq

/-- `groupInfo` element of a raw counter. -/
structure GroupInfo where
  key : String
deriving Repr, DecidableEq

/-- `unitInfo` element of a raw counter. -/
structure UnitInfo where
  label : String
deriving Repr, DecidableEq

/-- One entry of the full integer counter table returned by
`QueryPerfCounterInt` (the fields the source reads). -/
structure PerfCounterInt where
  key : Int
  groupInfo : GroupInfo
  nameInfo : NameInfo
  rollupType : String
  unitInfo : UnitInfo
deriving Repr, DecidableEq

/-- `ns0:PerformanceManagerCounterLevelMapping` as constructed in
`enable_guest` (src line 61). -/
structure CounterLevelMapping where
  counterId : Int
  aggregateLevel : Int
deriving Repr, DecidableEq

/-- `seconds_to_readable` (src lines 91-100): chained `divmod` into
seconds, minutes, hours, days; zero components omitted; `'0s'` when the
join is empty (Python `' '.join(parts) or '0s'`). -/
def seconds_to_readable (seconds : Nat) : String :=
  let sec := seconds % 60
  let minutes := seconds / 60
  let minutes2 := minutes % 60
  let hours := minutes / 60
  let hours2 := hours % 24
  let days := hours / 24
  let parts : List String :=
    (if days ≠ 0 then [toString days ++ "d"] else []) ++
    (if hours2 ≠ 0 then [toString hours2 ++ "h"] else []) ++
    (if minutes2 ≠ 0 then [toString minutes2 ++ "m"] else []) ++
    (if sec ≠ 0 then [toString sec ++ "s"] else [])
  let joined := String.intercalate " " parts
  if joined = "" then "0s" else joined

/-- Rendering built directly from the decomposition
`n = d*86400 + h*3600 + m*60 + s` named by the spec, with the same
joining convention; used to compare the source's chained `divmod`
against the spec's wording. -/
def readable_from_decomposition (n : Nat) : String :=
  let d := n / 86400
  let h := n / 3600 % 24
  let m := n / 60 % 60
  let s := n % 60
  let parts : List String :=
    (if d ≠ 0 then [toString d ++ "d"] else []) ++
    (if h ≠ 0 then [toString h ++ "h"] else []) ++
    (if m ≠ 0 then [toString m ++ "m"] else []) ++
    (if s ≠ 0 then [toString s ++ "s"] else [])
  let joined := String.intercalate " " parts
  if joined = "" then "0s" else joined

example : seconds_to_readable 0 = "0s" := by decide
example : seconds_to_readable 3600 = "1h" := by decide
example : seconds_to_readable 90061 = "1d 1h 1m 1s" := by decide

/-- One element of `perf_mgr.historicalInterval` (the fields read by
`get_intervals`, src lines 106-108). -/
structure HistoricalInterval where
  samplingPeriod : Int
  length : Nat
  level : Int
  name : String
deriving Repr, DecidableEq

/-- The display label of the synthetic realtime interval (src line 105). -/
def realtime_label : String :=
  "  ID: 20 seconds (Realtime) - Level 1, Retained for " ++ seconds_to_readable 3600

/-- The display label of one historical interval (src line 108). -/
def interval_label (i : HistoricalInterval) : String :=
  "  ID: " ++ toString i.samplingPeriod ++ "s (" ++ i.name ++ ") - Level " ++
    toString i.level ++ ", Retained for " ++ seconds_to_readable i.length

/-- `get_intervals` (src lines 103-109): prepend the `(20, realtime)`
entry, then one `(samplingPeriod, label)` pair per server-configured
historical interval, in server order. -/
def get_intervals (hist : List HistoricalInterval) : List (Int × String) :=
  (20, realtime_label) :: hist.map (fun i => (i.samplingPeriod, interval_label i))

/-- The mapping list built by the loop in `enable_guest`
(src lines 57-62): one `CounterLevelMapping` with `aggregateLevel=4`
per raw counter, in table order. -/
def enable_guest_mappings (counters : List PerfCounterInt) : List CounterLevelMapping :=
  counters.map (fun c => ⟨c.key, 4⟩)

/-- The `result` descriptor list built by the same loop (src line 62):
one `CounterInfo` per raw counter, in table order. -/
def enable_guest_descriptors (counters : List PerfCounterInt) : List CounterInfo :=
  counters.map (fun c =>
    ⟨c.key, c.groupInfo.key ++ "." ++ c.nameInfo.key, c.rollupType,
      c.unitInfo.label, c.nameInfo.summary⟩)

/-- `requests` cookie-jar lookup `cookies.get(key)` (src line 66):
the stored value, or `none` when the cookie is absent. -/
def cookies_get (cookies : List (String × String)) (key : String) : Option String :=
  (cookies.find? (fun p => p.fst == key)).map (fun p => p.snd)

/-- The value `enable_guest` returns (src lines 66-67): the raw
`vmware_soap_session` cookie lookup (possibly `none`) paired with the
descriptor list.  No check is made on the cookie. -/
def enable_guest_result (cookies : List (String × String))
    (counters : List PerfCounterInt) : Option String × List CounterInfo :=
  (cookies_get cookies "vmware_soap_session", enable_guest_descriptors counters)

/-- Python `str.casefold` as used on the ASCII dotted counter names:
character-wise lower-casing (Python's casefold agrees with lower on
ASCII); strings are handled as their character lists. -/
def casefold (s : String) : List Char := s.data.map Char.toLower

/-- Python `str.startswith`: the pattern's characters are a prefix of
the subject's characters. -/
def py_startswith (s p : List Char) : Bool := p.isPrefixOf s

/-- The merged candidate list (src line 159):
`[*get_counters(...), *guest_metrics]`, i.e. plain concatenation. -/
def all_counters (entity_counters guest_metrics : List CounterInfo) : List CounterInfo :=
  entity_counters ++ guest_metrics

/-- One evaluation of the comprehension's condition
`t.name.casefold().startswith(mask)` (src line 160).  `mask` is
`questionary.text(...).ask() or None`, so an empty answer arrives as
`none`, and `startswith(None)` raises `TypeError`. -/
def filter_cond (mask : Option String) (t : CounterInfo) : Except String Bool :=
  match mask with
  | none => Except.error "TypeError"
  | some m => Except.ok (py_startswith (casefold t.name) m.data)

/-- The filtering comprehension
`[t for t in all_counters if t.name.casefold().startswith(mask)]`
(src line 160): the condition is evaluated once per element, left to
right, and an exception from it propagates at once — so an empty
candidate list yields `[]` without the condition ever being
evaluated. -/
def filter_counters (counters : List CounterInfo) (mask : Option String) :
    Except String (List CounterInfo) :=
  match counters with
  | [] => Except.ok []
  | t :: rest =>
    match filter_cond mask t with
    | Except.error e => Except.error e
    | Except.ok keep =>
      match filter_counters rest mask with
      | Except.error e => Except.error e
      | Except.ok tail => Except.ok (if keep then t :: tail else tail)

/-- The query window computed in `main` (src lines 168-173), as
`(start_time, end_time)` in seconds since an epoch;
`timedelta(days=365)` is `365 * 86400` seconds. -/
def query_window (now interval : Int) : Option Int × Option Int :=
  if interval ≠ 20 then (some (now - 365 * 86400), some now) else (none, none)

/-- One entry of `rec.sampleInfo` (the field read at src line 192). -/
structure SampleInfoEntry where
  timestamp : Int
deriving Repr, DecidableEq

/-- One per-instance series of `rec.value` (fields read at
src lines 207-209): the `m.id.instance` selector string and `m.value`. -/
structure MetricSeries where
  instanceId : String
  value : List Int
deriving Repr, DecidableEq

/-- One record of the `QueryPerf` response. -/
structure PerfEntityMetric where
  sampleInfo : List SampleInfoEntry
  value : List MetricSeries
deriving Repr, DecidableEq

/-- The instance label (src line 209): `m.id.instance or "(aggregate)"` —
the selector string when non-empty, else the synthetic label. -/
def instance_label (s : String) : String := if s = "" then "(aggregate)" else s

/-- The reshape of the first response record (src lines 191-209): the
shared timestamp axis from `rec.sampleInfo`, and one `(label, values)`
pair per series of `rec.value`, the values passed through verbatim with
no length check. -/
def reshape (rec : PerfEntityMetric) : List Int × List (String × List Int) :=
  (rec.sampleInfo.map (fun e => e.timestamp),
   rec.value.map (fun m => (instance_label m.instanceId, m.value)))

/-- What `main` does at each step after the typed session `si` exists
(src lines 129-224); each remote or library call may raise.  The
environment fixes each call's outcome. -/
structure Env where
  retrieveContent : Except String Unit
  getEntities : Except String Unit
  getIntervals : Except String (List HistoricalInterval)
  getCounters : Except String (List CounterInfo)
  queryPerf : Except String (List PerfEntityMetric)
  plot : List Int → List (String × List Int) → Except String Unit

/-- How a run of `main` ends. -/
inductive Outcome where
  | noData
  | completed
  | raised (e : String)
deriving Repr, DecidableEq

/-- A run's end state: its outcome, and whether `Disconnect(si)` was
executed before leaving `main`. -/
structure RunResult where
  outcome : Outcome
  disconnected : Bool
deriving Repr, DecidableEq

/-- The control flow of `main` after `si` is created (src lines
129-224).  There is no `try`/`finally`: an exception anywhere
propagates out of `main` at once, skipping `Disconnect`.  `Disconnect(si)`
runs only on the empty-result path (src line 187) and after a completed
plot (src line 224). -/
def run_main (env : Env) : RunResult :=
  match env.retrieveContent with
  | .error e => ⟨.raised e, false⟩
  | .ok _ =>
    match env.getEntities with
    | .error e => ⟨.raised e, false⟩
    | .ok _ =>
      match env.getIntervals with
      | .error e => ⟨.raised e, false⟩
      | .ok _ =>
        match env.getCounters with
        | .error e => ⟨.raised e, false⟩
        | .ok _ =>
          match env.queryPerf with
          | .error e => ⟨.raised e, false⟩
          | .ok perf_data =>
            match perf_data with
            | [] => ⟨.noData, true⟩
            | rec :: _ =>
              let r := reshape rec
              match env.plot r.fst r.snd with
              | .error e => ⟨.raised e, false⟩
              | .ok _ => ⟨.completed, true⟩

/-- C8: for every nonnegative number of seconds `n`, the rendering of
`seconds_to_readable` is built from the unique decomposition
`n = d*86400 + h*3600 + m*60 + s` (with `h < 24`, `m < 60`, `s < 60`),
listing the components in the fixed order d, h, m, s with zero
components omitted, and yielding exactly `"0s"` when `n = 0`. -/
theorem C8_seconds_to_readable_decomposition (n : Nat) :
    n = n / 86400 * 86400 + n / 3600 % 24 * 3600 + n / 60 % 60 * 60 + n % 60 ∧
    n / 3600 % 24 < 24 ∧ n / 60 % 60 < 60 ∧ n % 60 < 60 ∧
    seconds_to_readable n = readable_from_decomposition n ∧
    seconds_to_readable 0 = "0s" := by
  have h1 : n / 60 / 60 = n / 3600 := by omega
  have h2 : n / 3600 / 24 = n / 86400 := by omega
  refine ⟨by omega, by omega, by omega, by omega, ?_, by decide⟩
  simp only [seconds_to_readable, readable_from_decomposition, h1, h2]

/-- C9: the interval catalog's first element is the synthetic realtime
interval — id 20, level 1, retention 3600 seconds (rendered `"1h"`) —
followed by each server-configured historical interval in server order,
with its sampling period, retention and level taken verbatim. -/
theorem C9_get_intervals_shape (hist : List HistoricalInterval) :
    (get_intervals hist).head? = some (20, realtime_label) ∧
    realtime_label =
      "  ID: 20 seconds (Realtime) - Level 1, Retained for " ++
        seconds_to_readable 3600 ∧
    seconds_to_readable 3600 = "1h" ∧
    (get_intervals hist).tail =
      hist.map (fun i => (i.samplingPeriod, interval_label i)) ∧
    (get_intervals hist).length = hist.length + 1 ∧
    ∀ k : Nat, (get_intervals hist)[k + 1]? =
      (hist[k]?).map (fun i => (i.samplingPeriod, interval_label i)) := by
  refine ⟨rfl, rfl, by decide, rfl, by simp [get_intervals], ?_⟩
  intro k
  simp [get_intervals]

/-- C10: the `enable_guest` loop produces exactly one level mapping
(with collection level fixed at 4) and exactly one descriptor per
counter of the server's full counter table, both lists in table order
with mapping `i` and descriptor `i` referring to the same counter id. -/
theorem C10_enable_guest_tables (counters : List PerfCounterInt) :
    (enable_guest_mappings counters).length = counters.length ∧
    (enable_guest_descriptors counters).length = counters.length ∧
    (∀ mp ∈ enable_guest_mappings counters, mp.aggregateLevel = 4) ∧
    ∀ i : Nat,
      ((enable_guest_mappings counters)[i]?).map (fun mp => mp.counterId) =
        (counters[i]?).map (fun c => c.key) ∧
      ((enable_guest_descriptors counters)[i]?).map (fun d => d.id) =
        (counters[i]?).map (fun c => c.key) := by
  refine ⟨by simp [enable_guest_mappings], by simp [enable_guest_descriptors],
    ?_, fun i => ⟨?_, ?_⟩⟩
  · intro mp hmp
    simp only [enable_guest_mappings, List.mem_map] at hmp
    obtain ⟨c, _, hc⟩ := hmp
    rw [← hc]
  · simp [enable_guest_mappings, Option.map_map]
    rfl
  · simp [enable_guest_descriptors, Option.map_map]
    rfl

/-- C10 witness: the theorem applied to a concrete two-counter table. -/
theorem C10_enable_guest_tables_witness :
    (enable_guest_mappings
      [⟨1, ⟨"cpu"⟩, ⟨"ready", "s1"⟩, "summation", ⟨"ms"⟩⟩,
       ⟨2, ⟨"net"⟩, ⟨"usage", "s2"⟩, "average", ⟨"KB"⟩⟩]).length = 2 ∧
    ∀ mp ∈ enable_guest_mappings
      [⟨1, ⟨"cpu"⟩, ⟨"ready", "s1"⟩, "summation", ⟨"ms"⟩⟩,
       ⟨2, ⟨"net"⟩, ⟨"usage", "s2"⟩, "average", ⟨"KB"⟩⟩],
      mp.aggregateLevel = 4 := by
  have h := C10_enable_guest_tables
    [⟨1, ⟨"cpu"⟩, ⟨"ready", "s1"⟩, "summation", ⟨"ms"⟩⟩,
     ⟨2, ⟨"net"⟩, ⟨"usage", "s2"⟩, "average", ⟨"KB"⟩⟩]
  exact ⟨h.1, h.2.2.1⟩

/-- C2: for every interval id other than 20 the query window is
`[now - 365 days, now]` (so end minus start is exactly 365 days and the
end is the current time); for interval id 20 both bounds are unset. -/
theorem C2_query_window (now interval : Int) :
    (interval ≠ 20 →
      query_window now interval = (some (now - 365 * 86400), some now) ∧
      ∃ s e, (query_window now interval).fst = some s ∧
        (query_window now interval).snd = some e ∧
        e - s = 365 * 86400 ∧ e = now) ∧
    (interval = 20 → query_window now interval = (none, none)) := by
  constructor
  · intro h
    have hq : query_window now interval = (some (now - 365 * 86400), some now) := by
      simp [query_window, h]
    refine ⟨hq, now - 365 * 86400, now, ?_, ?_, by ring, rfl⟩
    · rw [hq]
    · rw [hq]
  · intro h
    simp [query_window, h]

/-- C2 witness: the window at `now = 1000` for the historical interval
300 and the realtime interval 20. -/
theorem C2_query_window_witness :
    query_window 1000 300 = (some (1000 - 365 * 86400), some 1000) ∧
    query_window 1000 20 = (none, none) :=
  ⟨((C2_query_window 1000 300).1 (by decide)).1, (C2_query_window 1000 20).2 rfl⟩

/-- C6: when every call up to the performance query succeeds and the
query returns no records, the run ends in the no-data outcome — not a
raised error — and the typed session is disconnected before leaving. -/
theorem C6_no_data_outcome (env : Env)
    (h1 : env.retrieveContent = Except.ok ())
    (h2 : env.getEntities = Except.ok ())
    (h3 : ∃ li, env.getIntervals = Except.ok li)
    (h4 : ∃ lc, env.getCounters = Except.ok lc)
    (h5 : env.queryPerf = Except.ok []) :
    run_main env = ⟨Outcome.noData, true⟩ ∧
    (run_main env).disconnected = true ∧
    ∀ e, (run_main env).outcome ≠ Outcome.raised e := by
  obtain ⟨li, h3⟩ := h3
  obtain ⟨lc, h4⟩ := h4
  have hrun : run_main env = ⟨Outcome.noData, true⟩ := by
    simp [run_main, h1, h2, h3, h4, h5]
  refine ⟨hrun, by rw [hrun], ?_⟩
  intro e
  rw [hrun]
  simp

/-- C6 witness: a concrete environment whose query returns no records. -/
theorem C6_no_data_outcome_witness :
    run_main ⟨Except.ok (), Except.ok (), Except.ok [], Except.ok [],
      Except.ok [], fun _ _ => Except.ok ()⟩ = ⟨Outcome.noData, true⟩ :=
  (C6_no_data_outcome
    ⟨Except.ok (), Except.ok (), Except.ok [], Except.ok [],
      Except.ok [], fun _ _ => Except.ok ()⟩
    rfl rfl ⟨[], rfl⟩ ⟨[], rfl⟩ rfl).1

/-- A response record with two timestamps but a single-value series:
the misaligned response of the spec's malformed-response scenario. -/
def rec_misaligned : PerfEntityMetric :=
  ⟨[⟨0⟩, ⟨60⟩], [⟨"", [5]⟩]⟩

/-- C1 counterexample: the reshape of a record whose series has 1 value
against 2 timestamps succeeds as an ordinary value — no
`MalformedResultError` exists in the code and no length check is made —
so a non-error result with misaligned lengths is produced. -/
theorem C1_counterexample :
    reshape rec_misaligned = ([0, 60], [("(aggregate)", [5])]) ∧
    ¬ ∀ p ∈ (reshape rec_misaligned).snd,
        p.snd.length = (reshape rec_misaligned).fst.length := by
  refine ⟨rfl, ?_⟩
  decide

/-- C1 amended: the reshape performs no alignment check and raises no
error; the timestamp axis and every per-instance value list are passed
through verbatim — never truncated or zipped short — so a misaligned
series reaches the plotting call at its original length. -/
theorem C1_reshape_passthrough (rec : PerfEntityMetric) :
    (reshape rec).fst = rec.sampleInfo.map (fun e => e.timestamp) ∧
    (reshape rec).fst.length = rec.sampleInfo.length ∧
    (reshape rec).snd.length = rec.value.length ∧
    ∀ i : Nat, ((reshape rec).snd[i]?).map (fun p => p.snd) =
      (rec.value[i]?).map (fun m => m.value) := by
  refine ⟨rfl, by simp [reshape], by simp [reshape], ?_⟩
  intro i
  simp [reshape, Option.map_map]
  rfl

/-- C3 counterexample: with an empty cookie jar (login yielded no
`vmware_soap_session` cookie) `enable_guest` returns the absent token
`none` as its ordinary success value; no `AuthenticationError` is
raised anywhere in the code. -/
theorem C3_counterexample :
    cookies_get [] "vmware_soap_session" = none ∧
    enable_guest_result [] [] = (none, []) :=
  ⟨rfl, rfl⟩

/-- C3 amended: `enable_guest` performs no check on the extracted
cookie — whenever the `vmware_soap_session` lookup is absent, the
function returns `none` as the token together with the descriptor list,
with no error raised. -/
theorem C3_token_passthrough (cookies : List (String × String))
    (counters : List PerfCounterInt)
    (h : cookies_get cookies "vmware_soap_session" = none) :
    enable_guest_result cookies counters =
      (none, enable_guest_descriptors counters) := by
  simp [enable_guest_result, h]

/-- C3 witness: the amended theorem at the empty cookie jar and a
one-counter table. -/
theorem C3_token_passthrough_witness :
    enable_guest_result [("other", "v")]
        [⟨1, ⟨"cpu"⟩, ⟨"ready", "s"⟩, "summation", ⟨"ms"⟩⟩] =
      (none, enable_guest_descriptors
        [⟨1, ⟨"cpu"⟩, ⟨"ready", "s"⟩, "summation", ⟨"ms"⟩⟩]) :=
  C3_token_passthrough [("other", "v")]
    [⟨1, ⟨"cpu"⟩, ⟨"ready", "s"⟩, "summation", ⟨"ms"⟩⟩] rfl

/-- A candidate counter whose dotted name has an upper-case letter. -/
def counter_net_upper : CounterInfo :=
  ⟨101, "Net.usage", "average", "KB", "network usage"⟩

/-- C4 counterexample: the mask `"NET"` is a case-insensitive prefix of
`"Net.usage"`, yet the code drops the counter (only the candidate name
is casefolded, the mask is compared literally); and an absent/empty
mask on this nonempty candidate list raises a `TypeError`
(`startswith(None)`) instead of leaving the candidate set unchanged. -/
theorem C4_counterexample :
    py_startswith (casefold counter_net_upper.name) (casefold "NET") = true ∧
    filter_counters [counter_net_upper] (some "NET") = Except.ok [] ∧
    filter_counters [counter_net_upper] none = Except.error "TypeError" := by
  exact ⟨by decide, rfl, rfl⟩

/-- C4 amended: filtering keeps exactly the counters whose casefolded
dotted name has the literal (uncasefolded) filter string as a prefix;
an absent or empty filter raises a `TypeError` on every nonempty
candidate list (the comprehension evaluates `startswith(None)` at the
first element) rather than performing no narrowing, while an empty
candidate list yields the empty list without the condition ever being
evaluated. -/
theorem C4_filter_behavior (counters : List CounterInfo) (m : String)
    (t : CounterInfo) :
    filter_counters counters (some m) =
      Except.ok (counters.filter (fun u => py_startswith (casefold u.name) m.data)) ∧
    (t ∈ counters.filter (fun u => py_startswith (casefold u.name) m.data) ↔
      t ∈ counters ∧ py_startswith (casefold t.name) m.data = true) ∧
    (counters = [] → filter_counters counters none = Except.ok []) ∧
    (counters ≠ [] → filter_counters counters none = Except.error "TypeError") := by
  refine ⟨?_, by simp [List.mem_filter], ?_, ?_⟩
  · induction counters with
    | nil => rfl
    | cons hd tl ih =>
      simp only [filter_counters, filter_cond, ih, List.filter_cons]
  · intro h
    rw [h]
    rfl
  · intro h
    match counters, h with
    | hd :: tl, _ => rfl

/-- C4 witness: the amended theorem at the empty candidate list and at
a concrete one-counter list, with an absent mask. -/
theorem C4_filter_behavior_witness :
    filter_counters [] none = Except.ok [] ∧
    filter_counters [counter_net_upper] none = Except.error "TypeError" :=
  ⟨(C4_filter_behavior [] "x" counter_net_upper).2.2.1 rfl,
   (C4_filter_behavior [counter_net_upper] "x" counter_net_upper).2.2.2
     (by simp)⟩

/-- Concrete entity-scoped and guest counters sharing the id 7. -/
def c5_entity : CounterInfo := ⟨7, "cpu.ready", "summation", "ms", "cpu ready"⟩

/-- A guest counter with the same id as `c5_entity`. -/
def c5_guest : CounterInfo := ⟨7, "cpu.ready", "summation", "ms", "cpu ready"⟩

/-- A guest counter with a fresh id. -/
def c5_guest2 : CounterInfo := ⟨8, "mem.usage", "average", "%", "memory"⟩

/-- C5 counterexample: the merge is plain concatenation with no
deduplication — when the entity-scoped and guest lists share the id 7,
the merged candidate set contains two descriptors with the same id. -/
theorem C5_counterexample :
    all_counters [c5_entity] [c5_guest] = [c5_entity, c5_guest] ∧
    ¬ ((all_counters [c5_entity] [c5_guest]).map (fun c => c.id)).Nodup := by
  refine ⟨rfl, ?_⟩
  decide

/-- C5 amended: the merged candidate set is the concatenation of the
entity-scoped and guest-only lists; it is a superset of each input
list, but no deduplication by id is performed — its ids are pairwise
distinct only when the concatenated inputs' ids already are. -/
theorem C5_merge_concat (ec gm : List CounterInfo) :
    all_counters ec gm = ec ++ gm ∧
    (∀ c ∈ ec, c ∈ all_counters ec gm) ∧
    (∀ c ∈ gm, c ∈ all_counters ec gm) ∧
    (((ec ++ gm).map (fun c => c.id)).Nodup →
      ((all_counters ec gm).map (fun c => c.id)).Nodup) := by
  refine ⟨rfl, ?_, ?_, fun h => h⟩
  · intro c hc
    simp [all_counters, hc]
  · intro c hc
    simp [all_counters, hc]

/-- C5 witness: the amended theorem at concrete disjoint-id lists. -/
theorem C5_merge_concat_witness :
    c5_entity ∈ all_counters [c5_entity] [c5_guest2] ∧
    c5_guest2 ∈ all_counters [c5_entity] [c5_guest2] ∧
    ((all_counters [c5_entity] [c5_guest2]).map (fun c => c.id)).Nodup := by
  have h := C5_merge_concat [c5_entity] [c5_guest2]
  exact ⟨h.2.1 c5_entity (by simp), h.2.2.1 c5_guest2 (by simp),
    h.2.2.2 (by decide)⟩

/-- C7 counterexample: in an environment where the performance query
raises a server fault after the typed session exists, the run exits
with the error propagating and `Disconnect` never executed — `main`
has no `try`/`finally` around its body. -/
theorem C7_counterexample :
    run_main ⟨Except.ok (), Except.ok (), Except.ok [], Except.ok [],
        Except.error "ServerFault", fun _ _ => Except.ok ()⟩ =
      ⟨Outcome.raised "ServerFault", false⟩ :=
  rfl

/-- C7 amended: the typed session is disconnected exactly on the
normal-completion and no-data exit paths; any unhandled error raised
after the session is created propagates out of `main` without the
session being disconnected. -/
theorem C7_disconnect_paths (env : Env) :
    (run_main env).disconnected = true ↔
      (run_main env).outcome = Outcome.noData ∨
      (run_main env).outcome = Outcome.completed := by
  unfold run_main
  cases env.retrieveContent with
  | error e => simp
  | ok u =>
    cases env.getEntities with
    | error e => simp
    | ok u2 =>
      cases env.getIntervals with
      | error e => simp
      | ok li =>
        cases env.getCounters with
        | error e => simp
        | ok lc =>
          cases env.queryPerf with
          | error e => simp
          | ok pd =>
            cases pd with
            | nil => simp
            | cons rec rest =>
              cases hp : env.plot (reshape rec).fst (reshape rec).snd with
              | error e => simp [hp]
              | ok u3 => simp [hp]

end VmwarePerf
